import Mathlib

/-!
Verification of the ChromaDMX tempo-synchronization session layer.

The repository's two compiled native sources are shallowly embedded here:

* `ABLLinkStubs.c` — the iOS stub implementation of the `ABLLink.h` API.
  Pointers (`ABLLinkRef`, `ABLLinkSessionStateRef`) are modelled as natural
  number addresses with `0` standing for `NULL`.  C functions that mutate
  their pointee in place (`ABLLinkSetTempo`, `ABLLinkCommitAppSessionState`,
  `ABLLinkSetActive`) are embedded as explicit state transformers returning
  the post-call state of the mutated handle; since every stub body is empty,
  each transformer is the identity.  `double` values are modelled as `ℚ`
  (the claims concern only finite, non-NaN inputs), `uint64_t` host times as
  `ℕ`, `jlong` handles as `ℤ`.

* `link_jni.cpp` — the Android JNI bridge.  Every entry point is a stub
  returning a constant (`nativeCreate` returns `0L`, `nativeCaptureBpm`
  returns `120.0`, the phase entry points return `0.0`, the mutators are
  no-ops).  The phase algorithm itself appears in the file only as a
  commented-out TODO block (`calculatePhase`), so it is modelled here
  from the spec.
-/

/-- Opaque C pointer `ABLLinkRef`, modelled as an address; `0` is `NULL`. -/
abbrev ABLLinkRef : Type := ℕ

/-- Opaque C pointer `ABLLinkSessionStateRef`, modelled as an address;
`0` is `NULL`. -/
abbrev ABLLinkSessionStateRef : Type := ℕ

/-- `ABLLinkNew` (ABLLinkStubs.c): ignores `bpm`, returns `NULL`. -/
def ABLLinkNew (bpm : ℚ) : ABLLinkRef := 0

/-- `ABLLinkDelete` (ABLLinkStubs.c): ignores `ref`, does nothing. -/
def ABLLinkDelete (ref : ABLLinkRef) : Unit := ()

/-- `ABLLinkSetActive` (ABLLinkStubs.c): ignores both arguments, does
nothing; embedded as the identity transformer on the handle. -/
def ABLLinkSetActive (ref : ABLLinkRef) (active : Bool) : ABLLinkRef := ref

/-- `ABLLinkIsEnabled` (ABLLinkStubs.c): ignores `ref`, returns `false`. -/
def ABLLinkIsEnabled (ref : ABLLinkRef) : Bool := false

/-- `ABLLinkGetNumPeers` (ABLLinkStubs.c): ignores `ref`, returns `0`. -/
def ABLLinkGetNumPeers (ref : ABLLinkRef) : ℕ := 0

/-- `ABLLinkCaptureAppSessionState` (ABLLinkStubs.c): ignores `ref`,
returns `NULL`. -/
def ABLLinkCaptureAppSessionState (ref : ABLLinkRef) : ABLLinkSessionStateRef := 0

/-- `ABLLinkCommitAppSessionState` (ABLLinkStubs.c): ignores both
arguments, does nothing; embedded as the identity transformer on the
session handle. -/
def ABLLinkCommitAppSessionState (ref : ABLLinkRef)
    (state : ABLLinkSessionStateRef) : ABLLinkRef := ref

/-- `ABLLinkGetTempo` (ABLLinkStubs.c): ignores `state`, returns `120.0`. -/
def ABLLinkGetTempo (state : ABLLinkSessionStateRef) : ℚ := 120

/-- `ABLLinkSetTempo` (ABLLinkStubs.c): ignores all arguments, does
nothing; embedded as the identity transformer on the state handle. -/
def ABLLinkSetTempo (state : ABLLinkSessionStateRef) (bpm : ℚ)
    (hostTime : ℕ) : ABLLinkSessionStateRef := state

/-- `ABLLinkGetBeatAtTime` (ABLLinkStubs.c): ignores all arguments,
returns `0.0`. -/
def ABLLinkGetBeatAtTime (state : ABLLinkSessionStateRef) (hostTime : ℕ)
    (quantum : ℚ) : ℚ := 0

/-- `nativeCreate` (link_jni.cpp): ignores `initialBpm`, returns `0L`. -/
def nativeCreate (initialBpm : ℚ) : ℤ := 0

/-- `nativeDestroy` (link_jni.cpp): ignores `ptr`, does nothing. -/
def nativeDestroy (ptr : ℤ) : Unit := ()

/-- `nativeSetEnabled` (link_jni.cpp): ignores both arguments, does
nothing; embedded as the identity transformer on the handle. -/
def nativeSetEnabled (ptr : ℤ) (enabled : Bool) : ℤ := ptr

/-- `nativeIsEnabled` (link_jni.cpp): ignores `ptr`, returns `JNI_FALSE`. -/
def nativeIsEnabled (ptr : ℤ) : Bool := false

/-- `nativeCaptureBpm` (link_jni.cpp): ignores `ptr`, returns `120.0`. -/
def nativeCaptureBpm (ptr : ℤ) : ℚ := 120

/-- `nativeCaptureBeatPhase` (link_jni.cpp): ignores `ptr` and `quantum`,
returns `0.0`. -/
def nativeCaptureBeatPhase (ptr : ℤ) (quantum : ℚ) : ℚ := 0

/-- `nativeCaptureBarPhase` (link_jni.cpp): ignores `ptr` and `quantum`,
returns `0.0`. -/
def nativeCaptureBarPhase (ptr : ℤ) (quantum : ℚ) : ℚ := 0

/-- `nativeNumPeers` (link_jni.cpp): ignores `ptr`, returns `0`. -/
def nativeNumPeers (ptr : ℤ) : ℤ := 0

/-- `nativeRequestBpm` (link_jni.cpp): ignores both arguments, does
nothing; embedded as the identity transformer on the link handle. -/
def nativeRequestBpm (ptr : ℤ) (bpm : ℚ) : ℤ := ptr

/-- Truncation toward zero, as C's `trunc`; used to model C `fmod`, whose
result carries the sign of its first argument. -/
def rtrunc (q : ℚ) : ℤ := if 0 ≤ q then ⌊q⌋ else ⌈q⌉

/-- C `fmod x y = x - trunc (x / y) * y`; the result has the sign of `x`
and magnitude below `|y|`. -/
def fmod (x y : ℚ) : ℚ := x - (rtrunc (x / y) : ℚ) * y

/-- Modelled from the spec: the `PhaseCalculator` algorithm of §4.2
(`rawPhase = beats mod quantum`; if `rawPhase < 0` add `quantum`; return
`rawPhase / quantum`).  The repository's `calculatePhase` helper in
`link_jni.cpp` carries exactly this body but only inside a commented-out
TODO block, so the compiled sources do not contain it. -/
def calculatePhase (beats quantum : ℚ) : ℚ :=
  (if fmod beats quantum < 0 then fmod beats quantum + quantum
   else fmod beats quantum) / quantum

lemma rtrunc_dist (t : ℚ) :
    -1 < t - (rtrunc t : ℚ) ∧ t - (rtrunc t : ℚ) < 1 := by
  unfold rtrunc
  by_cases h : 0 ≤ t
  · simp only [if_pos h]
    have h1 := Int.floor_le t
    have h2 := Int.lt_floor_add_one t
    constructor <;> linarith
  · simp only [if_neg h]
    have h1 := Int.le_ceil t
    have h2 := Int.ceil_lt_add_one t
    constructor <;> linarith

lemma fmod_bounds (x y : ℚ) (hy : 0 < y) : -y < fmod x y ∧ fmod x y < y := by
  have hd := rtrunc_dist (x / y)
  have hxy : x / y * y = x := div_mul_cancel₀ x (ne_of_gt hy)
  have hkey : fmod x y = (x / y - (rtrunc (x / y) : ℚ)) * y := by
    unfold fmod; rw [sub_mul, hxy]
  have h1 : (-1 : ℚ) * y < (x / y - (rtrunc (x / y) : ℚ)) * y :=
    mul_lt_mul_of_pos_right hd.1 hy
  have h2 : (x / y - (rtrunc (x / y) : ℚ)) * y < 1 * y :=
    mul_lt_mul_of_pos_right hd.2 hy
  rw [hkey]
  constructor <;> linarith

lemma calculatePhase_bounds (beats quantum : ℚ) (hq : 0 < quantum) :
    0 ≤ calculatePhase beats quantum ∧ calculatePhase beats quantum < 1 := by
  have hb := fmod_bounds beats quantum hq
  unfold calculatePhase
  by_cases h : fmod beats quantum < 0
  · simp only [if_pos h]
    refine ⟨div_nonneg (by linarith [hb.1]) hq.le, ?_⟩
    rw [div_lt_one hq]
    linarith
  · simp only [if_neg h]
    push_neg at h
    exact ⟨div_nonneg h hq.le, by rw [div_lt_one hq]; linarith [hb.2]⟩

/-- C1: for every handle, beat value and quantum with `quantum > 0`, the
phase computation returns a value `p` with `0 ≤ p < 1`.  This holds for the
compiled stub entry points `nativeCaptureBeatPhase` / `nativeCaptureBarPhase`
(which return the constant `0.0`) and for the spec-modelled `calculatePhase`
algorithm. -/
theorem phase_result_in_unit_interval (ptr : ℤ) (beats quantum : ℚ)
    (hq : 0 < quantum) :
    (0 ≤ nativeCaptureBeatPhase ptr quantum ∧
      nativeCaptureBeatPhase ptr quantum < 1) ∧
    (0 ≤ nativeCaptureBarPhase ptr quantum ∧
      nativeCaptureBarPhase ptr quantum < 1) ∧
    (0 ≤ calculatePhase beats quantum ∧ calculatePhase beats quantum < 1) := by
  refine ⟨⟨le_of_eq rfl, ?_⟩, ⟨le_of_eq rfl, ?_⟩,
    calculatePhase_bounds beats quantum hq⟩
  · show (0 : ℚ) < 1
    norm_num
  · show (0 : ℚ) < 1
    norm_num

/-- Witness for C1 at `ptr = 0`, `beats = 11/2`, `quantum = 4`. -/
theorem phase_result_in_unit_interval_witness :
    (0 : ℚ) < 4 ∧
    (0 ≤ calculatePhase (11 / 2) 4 ∧ calculatePhase (11 / 2) 4 < 1) :=
  ⟨by norm_num,
    (phase_result_in_unit_interval 0 (11 / 2) 4 (by norm_num)).2.2⟩

/-- C2 counterexample: the compiled phase entry point does not follow the
specified algorithm.  At `ptr = 0`, `quantum = 4` the stub returns `0.0`,
while the specified algorithm applied to beat position `5.5` yields
`0.375`; moreover the stub session state reports beat `0.0` at every host
time (`ABLLinkGetBeatAtTime`), so no captured state can ever sit at beat
`5.5`. -/
theorem stub_phase_ne_algorithm_example :
    nativeCaptureBeatPhase 0 4 = 0 ∧
    calculatePhase (11 / 2) 4 = 3 / 8 ∧
    ABLLinkGetBeatAtTime 0 0 4 = 0 ∧
    (0 : ℚ) ≠ 3 / 8 := by
  refine ⟨rfl, ?_, rfl, by norm_num⟩
  norm_num [calculatePhase, fmod, rtrunc]

/-- C2 amended: the specified phase algorithm (beats mod quantum, add
quantum when negative, divide by quantum) yields `0.375` at beat position
`5.5` with quantum `4.0`; the compiled stub entry points do not implement
it and return `0.0` for every input. -/
theorem phase_algorithm_example_amended :
    calculatePhase (11 / 2) 4 = 3 / 8 ∧
    (∀ (ptr : ℤ) (q : ℚ), nativeCaptureBeatPhase ptr q = 0 ∧
      nativeCaptureBarPhase ptr q = 0) := by
  refine ⟨?_, fun ptr q => ⟨rfl, rfl⟩⟩
  norm_num [calculatePhase, fmod, rtrunc]

/-- C3: setting a tempo on a captured session state (`ABLLinkSetTempo`,
a no-op in the stub, embedded as the identity transformer) leaves the
beat mapping at the change time unchanged: `S.beatAtTime(t) =
S'.beatAtTime(t)`. -/
theorem setTempo_beatAtTime_continuity (S : ABLLinkSessionStateRef)
    (newBpm : ℚ) (t : ℕ) (q : ℚ) (h : 0 < newBpm) :
    ABLLinkGetBeatAtTime (ABLLinkSetTempo S newBpm t) t q =
      ABLLinkGetBeatAtTime S t q := rfl

/-- Witness for C3 at `S = 0`, `newBpm = 140`, `t = 7`, `q = 4`. -/
theorem setTempo_beatAtTime_continuity_witness :
    (0 : ℚ) < 140 ∧
    ABLLinkGetBeatAtTime (ABLLinkSetTempo 0 140 7) 7 4 =
      ABLLinkGetBeatAtTime 0 7 4 :=
  ⟨by norm_num, setTempo_beatAtTime_continuity 0 140 7 4 (by norm_num)⟩

/-- C4 counterexample: a call with `quantum ≤ 0` is not rejected.  At
`quantum = -1` the stub entry points return the ordinary phase value
`0.0` — exactly the value returned for the valid quantum `1` — with no
domain-error result or precondition failure. -/
theorem quantum_nonpositive_not_rejected :
    nativeCaptureBeatPhase 0 (-1) = 0 ∧
    nativeCaptureBarPhase 0 (-1) = 0 ∧
    nativeCaptureBeatPhase 0 1 = 0 ∧
    nativeCaptureBeatPhase 0 (-1) = nativeCaptureBeatPhase 0 1 :=
  ⟨rfl, rfl, rfl, rfl⟩

/-- C4 amended: for every input with `quantum ≤ 0` the stub phase entry
points silently return the ordinary value `0.0` (no rejection); they do
never divide by zero or produce NaN, since the stub computation is the
constant `0` and never uses `quantum` as a divisor. -/
theorem quantum_nonpositive_returns_zero (ptr : ℤ) (quantum : ℚ)
    (h : quantum ≤ 0) :
    nativeCaptureBeatPhase ptr quantum = 0 ∧
    nativeCaptureBarPhase ptr quantum = 0 := ⟨rfl, rfl⟩

/-- Witness for the amended C4 at `ptr = 0`, `quantum = -1`. -/
theorem quantum_nonpositive_returns_zero_witness :
    (-1 : ℚ) ≤ 0 ∧ nativeCaptureBeatPhase 0 (-1) = 0 :=
  ⟨by norm_num, (quantum_nonpositive_returns_zero 0 (-1) (by norm_num)).1⟩

/-- C5: committing an unmodified captured state —
`ABLLinkCommitAppSessionState ref (ABLLinkCaptureAppSessionState ref)` —
leaves the mesh-observable tempo and beat mapping of a subsequent capture
unchanged. -/
theorem commit_capture_roundtrip_noop (ref : ABLLinkRef) (t : ℕ) (q : ℚ) :
    ABLLinkGetTempo (ABLLinkCaptureAppSessionState
        (ABLLinkCommitAppSessionState ref
          (ABLLinkCaptureAppSessionState ref))) =
      ABLLinkGetTempo (ABLLinkCaptureAppSessionState ref) ∧
    ABLLinkGetBeatAtTime (ABLLinkCaptureAppSessionState
        (ABLLinkCommitAppSessionState ref
          (ABLLinkCaptureAppSessionState ref))) t q =
      ABLLinkGetBeatAtTime (ABLLinkCaptureAppSessionState ref) t q :=
  ⟨rfl, rfl⟩

/-- C6: a tempo request with non-positive bpm (`nativeRequestBpm`, a
no-op in the stub, embedded as the identity transformer) commits nothing
and clamps nothing: the link handle is unchanged and the mesh-observable
tempo after the call equals the tempo before it. -/
theorem requestBpm_nonpositive_tempo_unchanged (ptr : ℤ) (bpm : ℚ)
    (h : bpm ≤ 0) :
    nativeRequestBpm ptr bpm = ptr ∧
    nativeCaptureBpm (nativeRequestBpm ptr bpm) = nativeCaptureBpm ptr :=
  ⟨rfl, rfl⟩

/-- Witness for C6 at `ptr = 0`, `bpm = -5`. -/
theorem requestBpm_nonpositive_tempo_unchanged_witness :
    (-5 : ℚ) ≤ 0 ∧ nativeCaptureBpm (nativeRequestBpm 0 (-5)) =
      nativeCaptureBpm 0 :=
  ⟨by norm_num, (requestBpm_nonpositive_tempo_unchanged 0 (-5)
    (by norm_num)).2⟩

/-- C7: a session that was never activated (fresh from `ABLLinkNew`, with
`ABLLinkSetActive` never called — i.e. the unavailable-provider stub)
still yields a usable capture: `isEnabled` is `false`, the peer count is
`0`, the captured state reports tempo `120` and beat `0` (so the phase
entry points return the valid phase `0`, inside `[0, 1)`), and no
operation fails. -/
theorem inactive_session_usable (bpm : ℚ) (t : ℕ) (q : ℚ) :
    ABLLinkIsEnabled (ABLLinkNew bpm) = false ∧
    ABLLinkGetNumPeers (ABLLinkNew bpm) = 0 ∧
    ABLLinkGetTempo (ABLLinkCaptureAppSessionState (ABLLinkNew bpm)) = 120 ∧
    ABLLinkGetBeatAtTime (ABLLinkCaptureAppSessionState (ABLLinkNew bpm))
      t q = 0 ∧
    nativeIsEnabled (nativeCreate bpm) = false ∧
    nativeNumPeers (nativeCreate bpm) = 0 ∧
    (0 ≤ nativeCaptureBeatPhase (nativeCreate bpm) q ∧
      nativeCaptureBeatPhase (nativeCreate bpm) q < 1) := by
  refine ⟨rfl, rfl, rfl, rfl, rfl, rfl, le_of_eq rfl, ?_⟩
  show (0 : ℚ) < 1
  norm_num

/-- C8: the stub provider reports peer count `0` and tempo `120` for
every handle and every input, independently of the constructor's initial
bpm and of any prior `ABLLinkSetTempo` / commit calls. -/
theorem stub_constant_peers_and_tempo (ref : ABLLinkRef)
    (st : ABLLinkSessionStateRef) (ptr : ℤ) (bpm : ℚ) (t : ℕ) :
    ABLLinkGetNumPeers ref = 0 ∧
    ABLLinkGetTempo st = 120 ∧
    nativeNumPeers ptr = 0 ∧
    nativeCaptureBpm ptr = 120 ∧
    ABLLinkGetNumPeers (ABLLinkNew bpm) = 0 ∧
    nativeCaptureBpm (nativeCreate bpm) = 120 ∧
    ABLLinkGetTempo (ABLLinkSetTempo st bpm t) = 120 ∧
    ABLLinkGetTempo (ABLLinkCaptureAppSessionState
      (ABLLinkCommitAppSessionState ref st)) = 120 ∧
    nativeCaptureBpm (nativeRequestBpm ptr bpm) = 120 :=
  ⟨rfl, rfl, rfl, rfl, rfl, rfl, rfl, rfl, rfl⟩

/-- C9: the beat-phase and bar-phase entry points are extensionally equal:
for every pointer and quantum, `nativeCaptureBeatPhase ptr quantum =
nativeCaptureBarPhase ptr quantum`. -/
theorem beatPhase_eq_barPhase :
    ∀ (ptr : ℤ) (quantum : ℚ),
      nativeCaptureBeatPhase ptr quantum = nativeCaptureBarPhase ptr quantum :=
  fun _ _ => rfl

/-- C10: every stub operation is total and never depends on its handle
argument — each returns its fixed default at `NULL` (address `0`, jlong
`0`), and its result at any handle equals its result at `NULL`, so no
operation can dereference the handle. -/
theorem null_handle_safe (r : ABLLinkRef) (st : ABLLinkSessionStateRef)
    (p : ℤ) (b : Bool) (bpm : ℚ) (t : ℕ) (q : ℚ) :
    ABLLinkDelete 0 = () ∧ ABLLinkDelete r = ABLLinkDelete 0 ∧
    ABLLinkSetActive 0 b = 0 ∧
    ABLLinkIsEnabled 0 = false ∧ ABLLinkIsEnabled r = ABLLinkIsEnabled 0 ∧
    ABLLinkGetNumPeers 0 = 0 ∧
    ABLLinkGetNumPeers r = ABLLinkGetNumPeers 0 ∧
    ABLLinkCaptureAppSessionState 0 = 0 ∧
    ABLLinkCaptureAppSessionState r = ABLLinkCaptureAppSessionState 0 ∧
    ABLLinkCommitAppSessionState 0 st = 0 ∧
    ABLLinkGetTempo 0 = 120 ∧ ABLLinkGetTempo st = ABLLinkGetTempo 0 ∧
    ABLLinkSetTempo 0 bpm t = 0 ∧
    ABLLinkGetBeatAtTime 0 t q = 0 ∧
    ABLLinkGetBeatAtTime st t q = ABLLinkGetBeatAtTime 0 t q ∧
    nativeDestroy 0 = () ∧ nativeDestroy p = nativeDestroy 0 :=
  ⟨rfl, rfl, rfl, rfl, rfl, rfl, rfl, rfl, rfl, rfl, rfl, rfl, rfl, rfl,
    rfl, rfl, rfl⟩
